import Mathlib

/-!
Shallow embedding of the two commit-policy hook scripts
(`wifi_upload_hook.py` and `overlayable_hook.py`) of the
GrapheneOS/platform_packages_modules_Wifi repository.

Strings are modelled as `List Char` (Python `str` over its code points).
The Python string primitives used by the hooks (`str.splitlines`,
`str.strip`, `str.lower`, `str.startswith`) are embedded below; the git
branch introspection (`is_in_aosp`) is abstracted as a boolean input, and
the guidance blocks printed by `main` are modelled as `Violation` values
returned alongside the exit code.
-/

/-- The ASCII whitespace characters stripped by Python `str.strip()`. -/
def pyIsSpace (c : Char) : Bool :=
  c == ' ' || c == '\t' || c == '\n' || c == '\r' || c == '\x0b' || c == '\x0c'

/-- Python `str.lower` on a single character (ASCII range, the only range
the hooks' marker literals live in). -/
def pyToLower (c : Char) : Char :=
  if 'A' ≤ c ∧ c ≤ 'Z' then Char.ofNat (c.toNat + 32) else c

/-- Python `str.lower`. -/
def lower (s : List Char) : List Char := s.map pyToLower

/-- Python `str.strip()`: drop leading and trailing whitespace. -/
def strip (s : List Char) : List Char :=
  ((s.dropWhile pyIsSpace).reverse.dropWhile pyIsSpace).reverse

/-- Python `s.startswith(p)`. -/
def startswith (s p : List Char) : Bool := p.isPrefixOf s

/-- Worker for `pySplitlines`: `acc` holds the current line reversed.
A line terminator is `\r\n`, `\n` or `\r`; a terminator at the very end of
the input does not open a new (empty) line, matching Python. -/
def splitlinesGo : List Char → List Char → List (List Char)
  | acc, [] => [acc.reverse]
  | acc, '\r' :: '\n' :: [] => [acc.reverse]
  | acc, '\r' :: '\n' :: c :: rest => acc.reverse :: splitlinesGo [] (c :: rest)
  | acc, '\n' :: [] => [acc.reverse]
  | acc, '\n' :: c :: rest => acc.reverse :: splitlinesGo [] (c :: rest)
  | acc, '\r' :: [] => [acc.reverse]
  | acc, '\r' :: c :: rest => acc.reverse :: splitlinesGo [] (c :: rest)
  | acc, c :: rest => splitlinesGo (c :: acc) rest

/-- Python `str.splitlines()` (over the line boundaries `\n`, `\r`,
`\r\n`; the empty string yields no lines). -/
def pySplitlines : List Char → List (List Char)
  | [] => []
  | c :: rest => splitlinesGo [] (c :: rest)

/-- A guidance block printed by a hook before it returns 1.  Each
constructor records which rule's remediation text is printed and the
`changed_file` interpolated into it. -/
inductive Violation where
  | overlayAck (matchedPath : List Char)
  | translationBugId (matchedPath : List Char)
deriving DecidableEq, Repr

/-- The Message Marker Scanner of the spec (§4.2), generalizing the two
hardcoded-marker loops of the sources: split the message into lines,
strip and lowercase each, and test whether some line starts with the
lowercased marker. -/
def hasMarker (commit_msg marker : List Char) : Bool :=
  (pySplitlines commit_msg).any fun line =>
    startswith (lower (strip line)) (lower marker)

namespace Overlayable

/-- `is_commit_msg_valid` of `overlayable_hook.py`: some line of the
message, stripped and lowercased, starts with `updated-overlayable`. -/
def is_commit_msg_valid (commit_msg : List Char) : Bool :=
  (pySplitlines commit_msg).any fun line =>
    startswith (lower (strip line)) "updated-overlayable".data

/-- Single-path matcher of `get_changed_resource_file` of
`overlayable_hook.py`: the checks in source order. -/
def matchesSurface (base_dir commit_file : List Char) : Bool :=
  commit_file == base_dir ++ "values/config.xml".data ||
  commit_file == base_dir ++ "values/strings.xml".data ||
  commit_file == base_dir ++ "values/styles.xml".data ||
  startswith commit_file (base_dir ++ "drawable/".data) ||
  startswith commit_file (base_dir ++ "layout/".data)

/-- `get_changed_resource_file` of `overlayable_hook.py`: return the
first commit file matching a tracked resource surface, else `None`. -/
def get_changed_resource_file (base_dir : List Char) :
    List (List Char) → Option (List Char)
  | [] => none
  | commit_file :: rest =>
    if matchesSurface base_dir commit_file then some commit_file
    else get_changed_resource_file base_dir rest

/-- `main` of `overlayable_hook.py` with the `is_in_aosp()` subprocess
probe abstracted as the boolean `in_aosp`.  Returns the exit code
together with the guidance blocks printed. -/
def main (in_aosp : Bool) (commit_msg : List Char)
    (commit_files : List (List Char)) : Nat × List Violation :=
  let base_dir := "service/ServiceWifiResources/res/".data
  if in_aosp then (0, [])
  else
    match get_changed_resource_file base_dir commit_files with
    | none => (0, [])
    | some changed_file =>
      if is_commit_msg_valid commit_msg then (0, [])
      else (1, [Violation.overlayAck changed_file])

end Overlayable

namespace WifiUpload

def BASE_DIR : List Char := "service/ServiceWifiResources/res/".data

def OVERLAY_FILE : List Char := BASE_DIR ++ "values/overlayable.xml".data

def CONFIG_FILE : List Char := BASE_DIR ++ "values/config.xml".data

def STRING_FILE : List Char := BASE_DIR ++ "values/strings.xml".data

def STYLES_FILE : List Char := BASE_DIR ++ "values/styles.xml".data

def DRAWABLE_DIR : List Char := BASE_DIR ++ "drawable/".data

def LAYOUT_DIR : List Char := BASE_DIR ++ "layout/".data

/-- `is_commit_msg_valid` of `wifi_upload_hook.py` (identical to the
overlayable hook's). -/
def is_commit_msg_valid (commit_msg : List Char) : Bool :=
  (pySplitlines commit_msg).any fun line =>
    startswith (lower (strip line)) "updated-overlayable".data

/-- Single-path matcher of `get_changed_resource_file` of
`wifi_upload_hook.py`: the checks in source order (strings first). -/
def matchesSurface (commit_file : List Char) : Bool :=
  commit_file == STRING_FILE ||
  commit_file == CONFIG_FILE ||
  commit_file == STYLES_FILE ||
  startswith commit_file DRAWABLE_DIR ||
  startswith commit_file LAYOUT_DIR

/-- `get_changed_resource_file` of `wifi_upload_hook.py`: the first
commit file matching a tracked surface (the `STRING_FILE` branch of the
source returns the constant `STRING_FILE`, which at that branch equals
`commit_file`). -/
def get_changed_resource_file : List (List Char) → Option (List Char)
  | [] => none
  | commit_file :: rest =>
    if matchesSurface commit_file then some commit_file
    else get_changed_resource_file rest

/-- `is_commit_msg_has_translation_bug_id` of `wifi_upload_hook.py`:
some line, stripped and lowercased, starts with `bug: 294871353`. -/
def is_commit_msg_has_translation_bug_id (commit_msg : List Char) : Bool :=
  (pySplitlines commit_msg).any fun line =>
    startswith (lower (strip line)) "bug: 294871353".data

/-- `main` of `wifi_upload_hook.py` with `is_in_aosp()` abstracted as
the boolean `in_aosp`; exit code plus printed guidance blocks. -/
def main (in_aosp : Bool) (commit_msg : List Char)
    (commit_files : List (List Char)) : Nat × List Violation :=
  if in_aosp then (0, [])
  else
    match get_changed_resource_file commit_files with
    | none => (0, [])
    | some changed_file =>
      if changed_file = STRING_FILE ∧
          ¬ is_commit_msg_has_translation_bug_id commit_msg then
        (1, [Violation.translationBugId changed_file])
      else if is_commit_msg_valid commit_msg then (0, [])
      else (1, [Violation.overlayAck changed_file])

end WifiUpload

/-! ### Helper lemmas shared by several claim theorems -/

/-- The overlayable hook's classifier is the first match of its
single-path matcher over the changed-file list. -/
theorem Overlayable.get_eq_find_ovl (base_dir : List Char)
    (commit_files : List (List Char)) :
    Overlayable.get_changed_resource_file base_dir commit_files =
      commit_files.find? (Overlayable.matchesSurface base_dir) := by
  induction commit_files with
  | nil => rfl
  | cons f rest ih =>
    rw [Overlayable.get_changed_resource_file, List.find?]
    cases h : Overlayable.matchesSurface base_dir f <;> simp [h, ih]

/-- The wifi_upload hook's classifier is the first match of its
single-path matcher over the changed-file list. -/
theorem WifiUpload.get_eq_find_wifi (commit_files : List (List Char)) :
    WifiUpload.get_changed_resource_file commit_files =
      commit_files.find? WifiUpload.matchesSurface := by
  induction commit_files with
  | nil => rfl
  | cons f rest ih =>
    rw [WifiUpload.get_changed_resource_file, List.find?]
    cases h : WifiUpload.matchesSurface f <;> simp [h, ih]

/-- A path matching no tracked surface (stated with the wifi_upload
constants, which spell out the same concrete paths the overlayable hook
builds from its `base_dir`) is rejected by the overlayable matcher. -/
theorem Overlayable.matchesSurface_eq_false_ovl (f : List Char)
    (h1 : f ≠ WifiUpload.CONFIG_FILE) (h2 : f ≠ WifiUpload.STRING_FILE)
    (h3 : f ≠ WifiUpload.STYLES_FILE)
    (h4 : startswith f WifiUpload.DRAWABLE_DIR = false)
    (h5 : startswith f WifiUpload.LAYOUT_DIR = false) :
    Overlayable.matchesSurface "service/ServiceWifiResources/res/".data f
      = false := by
  have e1 : "service/ServiceWifiResources/res/".data ++
      "values/config.xml".data = WifiUpload.CONFIG_FILE := rfl
  have e2 : "service/ServiceWifiResources/res/".data ++
      "values/strings.xml".data = WifiUpload.STRING_FILE := rfl
  have e3 : "service/ServiceWifiResources/res/".data ++
      "values/styles.xml".data = WifiUpload.STYLES_FILE := rfl
  have e4 : "service/ServiceWifiResources/res/".data ++
      "drawable/".data = WifiUpload.DRAWABLE_DIR := rfl
  have e5 : "service/ServiceWifiResources/res/".data ++
      "layout/".data = WifiUpload.LAYOUT_DIR := rfl
  simp [Overlayable.matchesSurface, e1, e2, e3, e4, e5, h1, h2, h3, h4, h5]

/-- A path matching no tracked surface is rejected by the wifi_upload
matcher. -/
theorem WifiUpload.matchesSurface_eq_false_wifi (f : List Char)
    (h1 : f ≠ WifiUpload.CONFIG_FILE) (h2 : f ≠ WifiUpload.STRING_FILE)
    (h3 : f ≠ WifiUpload.STYLES_FILE)
    (h4 : startswith f WifiUpload.DRAWABLE_DIR = false)
    (h5 : startswith f WifiUpload.LAYOUT_DIR = false) :
    WifiUpload.matchesSurface f = false := by
  simp [WifiUpload.matchesSurface, h1, h2, h3, h4, h5]

/-- The marker literals of both hooks are already lowercase. -/
theorem lower_marker_literals :
    lower "updated-overlayable".data = "updated-overlayable".data ∧
    lower "bug: 294871353".data = "bug: 294871353".data := by decide

example : pySplitlines "a\nb".data = ["a".data, "b".data] := by decide
example : pySplitlines "a\r\nb\n".data = ["a".data, "b".data] := by decide
example : pySplitlines "".data = [] := by decide
example : pySplitlines "\n".data = [[]] := by decide
example : strip "  Bug: 1  ".data = "Bug: 1".data := by decide
example : lower "Updated-Overlayable: TRUE".data =
    "updated-overlayable: true".data := by decide
example : Overlayable.is_commit_msg_valid "fix\nUpdated-Overlayable: TRUE".data
    = true := by decide
example : Overlayable.is_commit_msg_valid "see Updated-Overlayable docs".data
    = false := by decide
example : WifiUpload.main false "translate".data [WifiUpload.STRING_FILE]
    = (1, [Violation.translationBugId WifiUpload.STRING_FILE]) := by decide

/-! ### Claim theorems -/

/-- C2: for every message and marker, the marker scanner returns true iff
some line of the message, stripped and lowercased, has the lowercased
marker as a prefix (trailing text permitted, case-insensitive, mid-line
occurrences never count); moreover the three hardcoded-marker loops of
the two sources coincide with the scanner at their marker literals. -/
theorem claim_marker_scanner_line_anchored (msg marker : List Char) :
    (hasMarker msg marker = true ↔
      ∃ line ∈ pySplitlines msg, lower marker <+: lower (strip line)) ∧
    Overlayable.is_commit_msg_valid msg =
      hasMarker msg "updated-overlayable".data ∧
    WifiUpload.is_commit_msg_valid msg =
      hasMarker msg "updated-overlayable".data ∧
    WifiUpload.is_commit_msg_has_translation_bug_id msg =
      hasMarker msg "bug: 294871353".data := by
  refine ⟨?_, ?_, ?_, ?_⟩
  · simp [hasMarker, List.any_eq_true, startswith]
  · simp [Overlayable.is_commit_msg_valid, hasMarker,
      lower_marker_literals.1]
  · simp [WifiUpload.is_commit_msg_valid, hasMarker,
      lower_marker_literals.1]
  · simp [WifiUpload.is_commit_msg_has_translation_bug_id, hasMarker,
      lower_marker_literals.2]

/-- C3: when the upstream-branch signal is true, both hooks allow with
no violations, for every message and changed-file list. -/
theorem claim_upstream_bypass (msg : List Char) (files : List (List Char)) :
    Overlayable.main true msg files = (0, []) ∧
    WifiUpload.main true msg files = (0, []) :=
  ⟨rfl, rfl⟩

/-- C9: evaluation is deterministic — two runs of both hooks on the same
`(isUpstreamBranch, message, changedPaths)` produce identical exit codes
and violation lists. -/
theorem claim_deterministic_evaluation (a : Bool) (msg : List Char)
    (files : List (List Char))
    (r1 r2 : (Nat × List Violation) × (Nat × List Violation))
    (h1 : r1 = (Overlayable.main a msg files, WifiUpload.main a msg files))
    (h2 : r2 = (Overlayable.main a msg files, WifiUpload.main a msg files)) :
    r1 = r2 := by
  rw [h1, h2]

/-- Witness for C9 at a concrete input. -/
theorem claim_deterministic_evaluation_witness :
    ((Overlayable.main false "fix default".data
        ["service/ServiceWifiResources/res/values/config.xml".data],
      WifiUpload.main false "fix default".data
        ["service/ServiceWifiResources/res/values/config.xml".data]) =
     (Overlayable.main false "fix default".data
        ["service/ServiceWifiResources/res/values/config.xml".data],
      WifiUpload.main false "fix default".data
        ["service/ServiceWifiResources/res/values/config.xml".data])) :=
  claim_deterministic_evaluation false "fix default".data
    ["service/ServiceWifiResources/res/values/config.xml".data] _ _ rfl rfl

/-- C10: the bug-id rule is a pure prefix test on each trimmed,
lowercased line; in particular the line `Bug: 2948713530`, which extends
the digits with a different bug number, still satisfies the rule. -/
theorem claim_bug_id_rule_pure_prefix_test (msg : List Char) :
    (WifiUpload.is_commit_msg_has_translation_bug_id msg = true ↔
      ∃ line ∈ pySplitlines msg,
        "bug: 294871353".data <+: lower (strip line)) ∧
    WifiUpload.is_commit_msg_has_translation_bug_id
      "Bug: 2948713530".data = true := by
  constructor
  · simp [WifiUpload.is_commit_msg_has_translation_bug_id, startswith]
  · decide

/-- C1: in the two-rule hook, when the classifier yields the strings
resource file (upstream flag false), the run is allowed iff the message
carries both the bug-id marker and the acknowledgment marker, and a
missing bug-id marker blocks with the bug-id guidance even when the
acknowledgment marker is present. -/
theorem claim_strings_change_needs_both_markers (msg : List Char)
    (files : List (List Char))
    (h : WifiUpload.get_changed_resource_file files =
      some WifiUpload.STRING_FILE) :
    ((WifiUpload.main false msg files).1 = 0 ↔
      (WifiUpload.is_commit_msg_has_translation_bug_id msg = true ∧
       WifiUpload.is_commit_msg_valid msg = true)) ∧
    (WifiUpload.is_commit_msg_has_translation_bug_id msg = false →
      WifiUpload.main false msg files =
        (1, [Violation.translationBugId WifiUpload.STRING_FILE])) := by
  cases hb : WifiUpload.is_commit_msg_has_translation_bug_id msg <;>
  cases hv : WifiUpload.is_commit_msg_valid msg <;>
  simp [WifiUpload.main, h, hb, hv]

/-- Witness for C1: a strings-file change whose message carries both
markers is allowed. -/
theorem claim_strings_change_needs_both_markers_witness :
    WifiUpload.get_changed_resource_file [WifiUpload.STRING_FILE] =
      some WifiUpload.STRING_FILE ∧
    (WifiUpload.main false
      "Bug: 294871353\nUpdated-Overlayable: TRUE".data
      [WifiUpload.STRING_FILE]).1 = 0 :=
  ⟨by decide,
   (claim_strings_change_needs_both_markers
      "Bug: 294871353\nUpdated-Overlayable: TRUE".data
      [WifiUpload.STRING_FILE] (by decide)).1.mpr ⟨by decide, by decide⟩⟩

/-- C4: a changed-file list in which no path equals a tracked file and no
path starts with a tracked directory is allowed by both hooks regardless
of the message (upstream flag false). -/
theorem claim_untracked_changes_always_allowed (msg : List Char)
    (files : List (List Char))
    (h : ∀ f ∈ files,
      f ≠ WifiUpload.CONFIG_FILE ∧ f ≠ WifiUpload.STRING_FILE ∧
      f ≠ WifiUpload.STYLES_FILE ∧
      startswith f WifiUpload.DRAWABLE_DIR = false ∧
      startswith f WifiUpload.LAYOUT_DIR = false) :
    Overlayable.main false msg files = (0, []) ∧
    WifiUpload.main false msg files = (0, []) := by
  have hO : Overlayable.get_changed_resource_file
      "service/ServiceWifiResources/res/".data files = none := by
    rw [Overlayable.get_eq_find_ovl, List.find?_eq_none]
    intro f hf
    obtain ⟨h1, h2, h3, h4, h5⟩ := h f hf
    simp [Overlayable.matchesSurface_eq_false_ovl f h1 h2 h3 h4 h5]
  have hW : WifiUpload.get_changed_resource_file files = none := by
    rw [WifiUpload.get_eq_find_wifi, List.find?_eq_none]
    intro f hf
    obtain ⟨h1, h2, h3, h4, h5⟩ := h f hf
    simp [WifiUpload.matchesSurface_eq_false_wifi f h1 h2 h3 h4 h5]
  constructor <;> simp [Overlayable.main, WifiUpload.main, hO, hW]

/-- Witness for C4: a commit touching only `README.md` is allowed by
both hooks on an empty message. -/
theorem claim_untracked_changes_always_allowed_witness :
    (∀ f ∈ ["README.md".data],
      f ≠ WifiUpload.CONFIG_FILE ∧ f ≠ WifiUpload.STRING_FILE ∧
      f ≠ WifiUpload.STYLES_FILE ∧
      startswith f WifiUpload.DRAWABLE_DIR = false ∧
      startswith f WifiUpload.LAYOUT_DIR = false) ∧
    Overlayable.main false [] ["README.md".data] = (0, []) :=
  ⟨by decide,
   (claim_untracked_changes_always_allowed [] ["README.md".data]
      (by decide)).1⟩

/-- C5: a `config.xml` change with message `fix default` is blocked by
both hooks with exactly the overlay-acknowledgment guidance, and adding
the line `Updated-Overlayable: TRUE` makes both hooks allow it. -/
theorem claim_config_change_ack_scenarios :
    Overlayable.main false "fix default".data [WifiUpload.CONFIG_FILE] =
      (1, [Violation.overlayAck WifiUpload.CONFIG_FILE]) ∧
    WifiUpload.main false "fix default".data [WifiUpload.CONFIG_FILE] =
      (1, [Violation.overlayAck WifiUpload.CONFIG_FILE]) ∧
    Overlayable.main false "fix default\nUpdated-Overlayable: TRUE".data
      [WifiUpload.CONFIG_FILE] = (0, []) ∧
    WifiUpload.main false "fix default\nUpdated-Overlayable: TRUE".data
      [WifiUpload.CONFIG_FILE] = (0, []) :=
  ⟨by decide, by decide, by decide, by decide⟩

/-- Counterexample to C6: with `config.xml` listed before `strings.xml`
and a message carrying the acknowledgment marker but no bug-id marker,
the two-rule hook allows the commit — the bug-id rule is never
evaluated even though the strings file is among the changed paths. -/
theorem claim_every_rule_evaluated_counterexample :
    WifiUpload.STRING_FILE ∈
      [WifiUpload.CONFIG_FILE, WifiUpload.STRING_FILE] ∧
    WifiUpload.is_commit_msg_has_translation_bug_id
      "Updated-Overlayable: TRUE".data = false ∧
    WifiUpload.main false "Updated-Overlayable: TRUE".data
      [WifiUpload.CONFIG_FILE, WifiUpload.STRING_FILE] = (0, []) :=
  ⟨by decide, by decide, by decide⟩

/-- C6 as amended: the classifier returns only the first changed path
matching a tracked surface, and the bug-id rule is evaluated exactly
when that first match is the strings resource file; under that
hypothesis an allowed run implies the bug-id marker is present. -/
theorem claim_first_match_only_rule_binding (msg : List Char)
    (files : List (List Char))
    (h : WifiUpload.get_changed_resource_file files =
      some WifiUpload.STRING_FILE) :
    (WifiUpload.get_changed_resource_file files =
      files.find? WifiUpload.matchesSurface) ∧
    ((WifiUpload.main false msg files).1 = 0 →
      WifiUpload.is_commit_msg_has_translation_bug_id msg = true) := by
  refine ⟨WifiUpload.get_eq_find_wifi files, ?_⟩
  intro h0
  cases hb : WifiUpload.is_commit_msg_has_translation_bug_id msg with
  | true => rfl
  | false => simp [WifiUpload.main, h, hb] at h0

/-- Witness for the amended C6: a change touching only the strings file,
with a bug-id line in the message, instantiates the hypothesis. -/
theorem claim_first_match_only_rule_binding_witness :
    WifiUpload.get_changed_resource_file [WifiUpload.STRING_FILE] =
      some WifiUpload.STRING_FILE ∧
    ((WifiUpload.main false "Bug: 294871353".data
        [WifiUpload.STRING_FILE]).1 = 0 →
      WifiUpload.is_commit_msg_has_translation_bug_id
        "Bug: 294871353".data = true) :=
  ⟨by decide,
   (claim_first_match_only_rule_binding "Bug: 294871353".data
      [WifiUpload.STRING_FILE] (by decide)).2⟩

/-- C7: each hook exits 0 exactly when it reports no violation and 1
exactly when it reports one — no other exit code is produced. -/
theorem claim_exit_code_zero_or_one (a : Bool) (msg : List Char)
    (files : List (List Char)) :
    ((Overlayable.main a msg files).1 =
      if (Overlayable.main a msg files).2 = [] then 0 else 1) ∧
    ((WifiUpload.main a msg files).1 =
      if (WifiUpload.main a msg files).2 = [] then 0 else 1) := by
  constructor
  · cases a with
    | true => rfl
    | false =>
      cases hc : Overlayable.get_changed_resource_file
          "service/ServiceWifiResources/res/".data files with
      | none => simp [Overlayable.main, hc]
      | some cf =>
        cases hv : Overlayable.is_commit_msg_valid msg <;>
        simp [Overlayable.main, hc, hv]
  · cases a with
    | true => rfl
    | false =>
      cases hc : WifiUpload.get_changed_resource_file files with
      | none => simp [WifiUpload.main, hc]
      | some cf =>
        by_cases hcf : cf = WifiUpload.STRING_FILE <;>
        cases hb : WifiUpload.is_commit_msg_has_translation_bug_id msg <;>
        cases hv : WifiUpload.is_commit_msg_valid msg <;>
        simp [WifiUpload.main, hc, hcf, hb, hv]

/-- C8: the classifier is a first-match scan whose per-path matcher
tests the exact files by equality and the drawable/layout directories
by prefix; concretely, a drawable change with no marker in the message
is blocked by both hooks with the drawable path in the guidance. -/
theorem claim_classifier_matching_semantics (base f : List Char)
    (files : List (List Char)) :
    (Overlayable.get_changed_resource_file base files =
      files.find? (Overlayable.matchesSurface base)) ∧
    (Overlayable.matchesSurface base f = true ↔
      (f = base ++ "values/config.xml".data ∨
       f = base ++ "values/strings.xml".data ∨
       f = base ++ "values/styles.xml".data ∨
       (base ++ "drawable/".data) <+: f ∨
       (base ++ "layout/".data) <+: f)) ∧
    Overlayable.main false "icon tweak".data
      ["service/ServiceWifiResources/res/drawable/icon.png".data] =
      (1, [Violation.overlayAck
        "service/ServiceWifiResources/res/drawable/icon.png".data]) ∧
    WifiUpload.main false "icon tweak".data
      ["service/ServiceWifiResources/res/drawable/icon.png".data] =
      (1, [Violation.overlayAck
        "service/ServiceWifiResources/res/drawable/icon.png".data]) := by
  refine ⟨Overlayable.get_eq_find_ovl base files, ?_, by decide, by decide⟩
  simp only [Overlayable.matchesSurface, startswith, Bool.or_eq_true,
    beq_iff_eq, List.isPrefixOf_iff_prefix]
  tauto
